import Mathlib

/-!
Shallow embedding of the LevelBot analytics engine (risk_utils.py,
indicators.py, context_evaluator.py, entry_filter_retest.py) over ℚ,
with theorems settling the specification claims.

Python floats are modelled as rationals; Python `Optional[float]`
becomes `Option ℚ`, and Python truthiness of an optional float
(`if x:` is false for both `None` and `0.0`) is modelled as
`x.getD 0 ≠ 0`.  Functions that can raise are modelled with `Except`.
-/

namespace LevelBot

/-- Decidable equality on `Except`, so concrete runs of the fallible
functions can be checked with `decide`. -/
instance {ε α : Type} [DecidableEq ε] [DecidableEq α] : DecidableEq (Except ε α) := fun
  | .ok a, .ok b =>
      if h : a = b then .isTrue (congrArg _ h)
      else .isFalse (fun c => h (Except.ok.inj c))
  | .error a, .error b =>
      if h : a = b then .isTrue (congrArg _ h)
      else .isFalse (fun c => h (Except.error.inj c))
  | .ok _, .error _ => .isFalse Except.noConfusion
  | .error _, .ok _ => .isFalse Except.noConfusion

/-! ### config.py -/

def STRUCTURAL_TARGET_RATIO : ℚ := 3
def PARTIAL_TARGET_RATIO : ℚ := 3/2
def RR_MIN : ℚ := 3
def RR_MAX : ℚ := 10

/-! ### risk_utils.py : select_structural_limit

The four numbered blocks of the Python function are embedded as four
candidate functions tried in order (each Python block either `return`s
a value or falls through). -/

/-- Block 1 of select_structural_limit: trendline-based candidate. -/
def limitTrendline (entry_price atr : ℚ) (trendline_price : Option ℚ)
    (side : String) : Option ℚ :=
  if trendline_price.getD 0 ≠ 0 then
    let buffer := (25/100) * atr
    let raw := if side = "LONG" then trendline_price.getD 0 - buffer
               else trendline_price.getD 0 + buffer
    if |entry_price - raw| < 6 * atr ∧
        ((side = "LONG" ∧ raw < entry_price) ∨ (side = "SHORT" ∧ raw > entry_price)) then
      some raw
    else none
  else none

/-- Block 2 of select_structural_limit: swing-level candidate. -/
def limitSwing (entry_price atr : ℚ) (swing_high swing_low : Option ℚ)
    (side : String) : Option ℚ :=
  if side = "LONG" ∧ swing_low.getD 0 ≠ 0 then
    let raw := swing_low.getD 0 * (997/1000) - (25/100) * atr
    if raw < entry_price ∧ |entry_price - raw| < 3 * atr then some raw else none
  else if side = "SHORT" ∧ swing_high.getD 0 ≠ 0 then
    let raw := swing_high.getD 0 * (1003/1000) + (25/100) * atr
    if raw > entry_price ∧ |entry_price - raw| < 3 * atr then some raw else none
  else none

/-- Block 3 of select_structural_limit: POC-based candidate. -/
def limitPoc (entry_price atr : ℚ) (poc : Option ℚ) (side : String) : Option ℚ :=
  if poc.getD 0 ≠ 0 then
    let raw := if side = "LONG" then poc.getD 0 - (25/100) * atr
               else poc.getD 0 + (25/100) * atr
    if ((side = "LONG" ∧ raw < entry_price) ∨ (side = "SHORT" ∧ raw > entry_price)) ∧
        |entry_price - raw| < 3 * atr then
      some raw
    else none
  else none

/-- Block 4 of select_structural_limit: low-volume-zone-exit candidate. -/
def limitLowVolume (entry_price atr : ℚ) (low_volume_exit : Option ℚ)
    (side : String) : Option ℚ :=
  if low_volume_exit.getD 0 ≠ 0 then
    let raw := if side = "LONG" then low_volume_exit.getD 0 - (25/100) * atr
               else low_volume_exit.getD 0 + (25/100) * atr
    if ((side = "LONG" ∧ raw < entry_price) ∨ (side = "SHORT" ∧ raw > entry_price)) ∧
        |entry_price - raw| < 3 * atr then
      some raw
    else none
  else none

/-- risk_utils.select_structural_limit: raises ValueError when atr ≤ 0, else
returns the first candidate among trendline, swing, POC, low-volume exit. -/
def select_structural_limit (entry_price atr : ℚ)
    (swing_high swing_low trendline_price poc low_volume_exit : Option ℚ)
    (side : String) : Except String (Option ℚ) :=
  if atr ≤ 0 then .error "ATR must be > 0"
  else .ok (limitTrendline entry_price atr trendline_price side <|>
            limitSwing entry_price atr swing_high swing_low side <|>
            limitPoc entry_price atr poc side <|>
            limitLowVolume entry_price atr low_volume_exit side)

/-! ### risk_utils.py : select_structural_target -/

/-- Block 1 of select_structural_target: swing targets (next swing on breakout,
current swing otherwise). -/
def targetSwing (entry_price : ℚ) (swing_high swing_low next_swing_high next_swing_low : Option ℚ)
    (side : String) (breakout : Bool) : Option ℚ :=
  if breakout then
    if side = "LONG" ∧ next_swing_high.getD 0 ≠ 0 then
      if next_swing_high.getD 0 * (995/1000) > entry_price then
        some (next_swing_high.getD 0 * (995/1000)) else none
    else if side = "SHORT" ∧ next_swing_low.getD 0 ≠ 0 then
      if next_swing_low.getD 0 * (1005/1000) < entry_price then
        some (next_swing_low.getD 0 * (1005/1000)) else none
    else none
  else
    if side = "LONG" ∧ swing_high.getD 0 ≠ 0 then
      if swing_high.getD 0 * (995/1000) > entry_price then
        some (swing_high.getD 0 * (995/1000)) else none
    else if side = "SHORT" ∧ swing_low.getD 0 ≠ 0 then
      if swing_low.getD 0 * (1005/1000) < entry_price then
        some (swing_low.getD 0 * (1005/1000)) else none
    else none

/-- Block 2 of select_structural_target: POC target. -/
def targetPoc (entry_price : ℚ) (poc : Option ℚ) (side : String) : Option ℚ :=
  if poc.getD 0 ≠ 0 ∧
      ((side = "LONG" ∧ poc.getD 0 > entry_price) ∨ (side = "SHORT" ∧ poc.getD 0 < entry_price)) then
    some (poc.getD 0)
  else none

/-- Block 3 of select_structural_target: trendline target. -/
def targetTrendline (entry_price : ℚ) (trendline_target : Option ℚ) (side : String) : Option ℚ :=
  if trendline_target.getD 0 ≠ 0 ∧
      ((side = "LONG" ∧ trendline_target.getD 0 > entry_price) ∨
       (side = "SHORT" ∧ trendline_target.getD 0 < entry_price)) then
    some (trendline_target.getD 0)
  else none

/-- Block 4 of select_structural_target: low-volume-area-exit target. -/
def targetLowVolume (entry_price : ℚ) (low_volume_exit : Option ℚ) (side : String) : Option ℚ :=
  if low_volume_exit.getD 0 ≠ 0 ∧
      ((side = "LONG" ∧ low_volume_exit.getD 0 > entry_price) ∨
       (side = "SHORT" ∧ low_volume_exit.getD 0 < entry_price)) then
    some (low_volume_exit.getD 0)
  else none

/-- Target-selection part of select_structural_target: first structural
candidate, with the STRUCTURAL_TARGET_RATIO fallback as default. -/
def structuralTargetValue (entry_price structural_limit : ℚ)
    (swing_high swing_low next_swing_high next_swing_low
     trendline_target poc low_volume_exit : Option ℚ)
    (side : String) (breakout : Bool) : ℚ :=
  (targetSwing entry_price swing_high swing_low next_swing_high next_swing_low side breakout <|>
   targetPoc entry_price poc side <|>
   targetTrendline entry_price trendline_target side <|>
   targetLowVolume entry_price low_volume_exit side).getD
    (entry_price + |entry_price - structural_limit| * STRUCTURAL_TARGET_RATIO *
      (if side = "LONG" then 1 else -1))

/-- risk_utils.select_structural_target: picks the first structural target
(swing, POC, trendline, low-volume exit), falls back to
entry ± stop_dist * STRUCTURAL_TARGET_RATIO, then computes
rr_used = |target - entry| / stop_dist (ZeroDivisionError when
stop_dist = 0) and raises the partial-target / dynamic-adjustment flag
when rr_used exceeds STRUCTURAL_TARGET_RATIO.
Returns (target, partial_target, dynamic_adjustment). -/
def select_structural_target (entry_price structural_limit atr : ℚ)
    (swing_high swing_low next_swing_high next_swing_low
     trendline_target poc low_volume_exit : Option ℚ)
    (side : String) (breakout : Bool) (confidence : ℚ) :
    Except String (ℚ × Option ℚ × Bool) :=
  let stop_dist := |entry_price - structural_limit|
  let target := structuralTargetValue entry_price structural_limit swing_high swing_low
    next_swing_high next_swing_low trendline_target poc low_volume_exit side breakout
  if stop_dist = 0 then .error "ZeroDivisionError"
  else if |target - entry_price| / stop_dist > STRUCTURAL_TARGET_RATIO then
    .ok (target, some (entry_price + stop_dist * PARTIAL_TARGET_RATIO *
          (if side = "LONG" then 1 else -1)), true)
  else .ok (target, none, false)

example : select_structural_limit 100 2 none (some 95) none none none "LONG"
    = .ok (some (18843/200)) := by
  norm_num [select_structural_limit, limitTrendline, limitSwing, limitPoc, limitLowVolume,
    abs_of_nonneg, abs_of_nonpos]

example : select_structural_target 100 (18843/200) 2 none none none none none none none
    "LONG" false 0 = .ok (23471/200, none, false) := by
  norm_num [select_structural_target, structuralTargetValue, targetSwing, targetPoc, targetTrendline,
    targetLowVolume, STRUCTURAL_TARGET_RATIO, PARTIAL_TARGET_RATIO,
    abs_of_nonneg, abs_of_nonpos]

example : select_structural_target 100 99 1 none none none none none (some 105) none
    "LONG" false 0 = .ok (105, some (203/2), true) := by
  norm_num [select_structural_target, structuralTargetValue, targetSwing, targetPoc, targetTrendline,
    targetLowVolume, STRUCTURAL_TARGET_RATIO, PARTIAL_TARGET_RATIO,
    abs_of_nonneg, abs_of_nonpos]

/-! ### indicators.py -/

/-- indicators.calculate_trend: with fewer than 6 closes returns "flat";
otherwise compares the last close (closes[-1]) with the fifth-from-last
close (closes[-5], index length-5) against a 0.2*atr threshold.  The
ema_period argument is unused, as in the source. -/
def calculate_trend (closes : List ℚ) (atr : ℚ) (ema_period : ℕ := 10) : String :=
  if closes.length < 6 then "flat"
  else
    let last := closes.getD (closes.length - 1) 0
    let back := closes.getD (closes.length - 5) 0
    if last > back + (2/10) * atr then "up"
    else if last < back - (2/10) * atr then "down"
    else "flat"

/-- indicators.classify_market_mode: the volume spike flag compares the last
volume with the maximum of vols_15m[-5:-1]; an empty slice (fewer than two
volumes) raises ValueError, as Python max([]) does.  Note the first branch
returns the literal string "flet". -/
def classify_market_mode (trend_1h : String) (atr_fast atr_slow : ℚ)
    (vols_15m : List ℚ) : Except String String :=
  let slice := (vols_15m.drop (vols_15m.length - 5)).dropLast
  match vols_15m.getLast?, slice with
  | some last, h :: t =>
    let spike := last > t.foldl max h
    .ok (if trend_1h = "flat" ∧ atr_fast < atr_slow * (6/10) then "flet"
         else if (trend_1h = "up" ∨ trend_1h = "down") ∧ spike then "trend"
         else if atr_fast > atr_slow * (18/10) then "scalp"
         else "neutral")
  | _, _ => .error "ValueError: max() arg is an empty sequence"

/-- Dictionary produced by indicators.calculate_candle_stats, as consumed by
evaluate_direction and entry_filter_retest. -/
structure CandleStats where
  body : ℚ
  upper_wick : ℚ
  lower_wick : ℚ
  volume : ℚ
  volume_spike : Bool
  strong_body : Bool
  doji : Bool
  weak_volume : Bool
deriving DecidableEq

/-- indicators.evaluate_direction: breakout, bounce, simple flat-breakout and
volume flat-breakout branches; swing levels are plain floats whose Python
truthiness (`swing_high and ...`) is `≠ 0`.  Returns
(direction, reasons, in_middle). -/
def evaluate_direction (current_price swing_high swing_low : ℚ) (trend_1h : String)
    (atr : ℚ) (highs lows : List ℚ) (cs : CandleStats) :
    Option String × List String × Bool :=
  let in_middle := decide (swing_low < current_price ∧ current_price < swing_high)
  -- breakout / bounce branch chain
  let base : Option String × List String :=
    if swing_high ≠ 0 ∧ current_price > swing_high + (1/10) * atr ∧
        cs.strong_body = true ∧ cs.volume_spike = true ∧ trend_1h = "up" then
      (some "LONG", ["Breakout up + volume + 1H trend"])
    else if swing_low ≠ 0 ∧ current_price < swing_low - (1/10) * atr ∧
        cs.strong_body = true ∧ cs.volume_spike = true ∧ trend_1h = "down" then
      (some "SHORT", ["Breakout down + volume + 1H trend"])
    else if (swing_low ≠ 0 ∧ cs.lower_wick > cs.body * (15/10) ∧
        current_price > swing_low ∧ trend_1h ≠ "down") ∧
        |current_price - swing_low| < (18/10) * atr then
      (some "LONG", ["Bounce from swing-LOW within 1.8 ATR"])
    else if (swing_high ≠ 0 ∧ cs.upper_wick > cs.body * (15/10) ∧
        current_price < swing_high ∧ trend_1h ≠ "up") ∧
        |current_price - swing_high| < (18/10) * atr then
      (some "SHORT", ["Bounce from swing-HIGH within 1.8 ATR"])
    else (none, [])
  -- flat-breakout: catching impulse without trend and without volume
  let base2 : Option String × List String :=
    if base.1 = none then
      if current_price > swing_high then (some "LONG", base.2 ++ ["Simple up breakout"])
      else if current_price < swing_low then (some "SHORT", base.2 ++ ["Simple down breakout"])
      else base
    else base
  -- flat-breakout with volume
  let base3 : Option String × List String :=
    if base2.1 = none ∧ cs.strong_body = true ∧ cs.volume_spike = true then
      if current_price > swing_high + (1/10) * atr then
        (some "LONG", base2.2 ++ ["Flat-breakout + volume"])
      else if current_price < swing_low - (1/10) * atr then
        (some "SHORT", base2.2 ++ ["Flat-breakout + volume"])
      else base2
    else base2
  (base3.1, base3.2, in_middle)

/-! ### context_evaluator.py -/

/-- Counter state of a ContextEvaluator instance. -/
structure ContextEvaluator where
  daily_rejection_count : ℕ
  consecutive_rejections : ℕ
deriving DecidableEq

/-- One row of the analytics CSV / one call to log_scenario. -/
structure ScenarioEvent where
  date : String
  symbol : String
  scenario_status : String
deriving DecidableEq

/-- Python str.upper() on the (ASCII) status strings. -/
def upperStr (s : String) : String := String.mk (s.toList.map Char.toUpper)

/-- Counter update shared verbatim by ContextEvaluator.log_scenario (after the
CSV write) and by the per-row body of ContextEvaluator._load_today_stats:
events dated other than today are ignored; "REJECTED" (case-insensitively)
increments both counters; "ACCEPTED" resets the consecutive counter only. -/
def apply_event (today : String) (s : ContextEvaluator) (e : ScenarioEvent) :
    ContextEvaluator :=
  if e.date ≠ today then s
  else if upperStr e.scenario_status = "REJECTED" then
    ⟨s.daily_rejection_count + 1, s.consecutive_rejections + 1⟩
  else if upperStr e.scenario_status = "ACCEPTED" then
    ⟨s.daily_rejection_count, 0⟩
  else s

/-- ContextEvaluator.__init__ followed by _load_today_stats: a freshly
constructed instance starts from zero counters and replays the logged
events in order. -/
def replay (today : String) (events : List ScenarioEvent) : ContextEvaluator :=
  events.foldl (apply_event today) ⟨0, 0⟩

example : replay "2026-10-12" [⟨"2026-10-12", "BTC-USDT", "REJECTED"⟩,
    ⟨"2026-10-11", "BTC-USDT", "REJECTED"⟩, ⟨"2026-10-12", "ETH-USDT", "accepted"⟩,
    ⟨"2026-10-12", "BTC-USDT", "REJECTED"⟩] = ⟨2, 1⟩ := by decide

/-! ### entry_filter_retest.py -/

/-- Helper deciding whether one character list starts with another. -/
def listStartsWith : List Char → List Char → Bool
  | [], _ => true
  | _ :: _, [] => false
  | a :: as, b :: bs => a == b && listStartsWith as bs

/-- Helper deciding whether needle occurs as a contiguous run of hay. -/
def listHasRun (needle : List Char) : List Char → Bool
  | [] => listStartsWith needle []
  | h :: t => listStartsWith needle (h :: t) || listHasRun needle t

/-- Python `needle in hay` on strings. -/
def strHasRun (needle hay : String) : Bool := listHasRun needle.toList hay.toList

/-- Python str.lower() on the (ASCII) reason strings. -/
def lowerStr (s : String) : String := String.mk (s.toList.map Char.toLower)

/-- Python round-half-to-even of a rational to an integer. -/
def roundHalfEven (q : ℚ) : ℤ :=
  let f := ⌊q⌋
  let r := q - f
  if r < 1/2 then f
  else if 1/2 < r then f + 1
  else if f % 2 = 0 then f else f + 1

/-- Python round(x, 2). -/
def pyRound2 (x : ℚ) : ℚ := (roundHalfEven (x * 100) : ℚ) / 100

/-- Result dictionary returned by entry_filter_retest (when not None).  The
keys present only in the "valid" dictionaries are optional fields. -/
structure RetestResult where
  status : String
  reason : String
  atr : ℚ
  scenario_bias : Option String := none
  evaluation_price : Option ℚ := none
  structural_target : Option ℚ := none
  structural_limit : Option ℚ := none
  rr : Option ℚ := none
deriving DecidableEq

/-- Candle body sizes of the last three closed candles:
[abs(closes[i] - closes[i-1]) for i in range(-3, 0)]. -/
def bodySizes (closes : List ℚ) : List ℚ :=
  let n := closes.length
  [ |closes.getD (n - 3) 0 - closes.getD (n - 4) 0|,
    |closes.getD (n - 2) 0 - closes.getD (n - 3) 0|,
    |closes.getD (n - 1) 0 - closes.getD (n - 2) 0| ]

/-- Python max(bodySizes closes). -/
def bodyMax (closes : List ℚ) : ℚ :=
  let n := closes.length
  max (|closes.getD (n - 3) 0 - closes.getD (n - 4) 0|)
    (max (|closes.getD (n - 2) 0 - closes.getD (n - 3) 0|)
      (|closes.getD (n - 1) 0 - closes.getD (n - 2) 0|))

/-- Breakout / low-volume-exit reason check at the top of
entry_filter_retest: Python `if reasons:` followed by the substring tests
on the joined, lowered reason string. -/
def retestBreakoutReason (reasons : List String) : Bool :=
  decide (reasons ≠ []) &&
    (strHasRun "breakout" (lowerStr (String.intercalate " " reasons)) ||
     strHasRun "exit from low-volume area" (lowerStr (String.intercalate " " reasons)))

/-- The `confirm` local of entry_filter_retest: strong body, volume spike,
MACD agreement or 1h-trend agreement. -/
def retestConfirm (direction : String) (candle_stats : CandleStats)
    (macd_confirms : Option Bool) (trend_1h : Option String) : Bool :=
  candle_stats.strong_body || candle_stats.volume_spike ||
    macd_confirms.getD false || decide (trend_1h = some direction)

/-- entry_filter_retest.entry_filter_retest.  `None` results are `.ok none`;
result dictionaries are `.ok (some r)`.  Computing the body sizes with fewer
than 4 closes raises IndexError; comparing a `None` confidence in the
overheated branch raises TypeError.  The optional trend / MACD / confidence
arguments keep their Python `None` default as `Option`; the `debug` flag
only controls prints and is irrelevant. -/
def entry_filter_retest (direction : String) (current_price : ℚ)
    (closes_15m : List ℚ) (swing_high swing_low atr : ℚ)
    (candle_stats : CandleStats) (structural_target structural_limit rr : ℚ)
    (trend_1h trend_4h : Option String) (macd_confirms : Option Bool)
    (confidence : Option ℚ) (debug : Bool) (retest_age : ℤ)
    (reasons : List String) : Except String (Option RetestResult) :=
  -- breakout / low-volume-exit reasons disable the overheated filter
  if retestBreakoutReason reasons = true then
    .ok none
  else
    let confirm : Bool := retestConfirm direction candle_stats macd_confirms trend_1h
    -- skip overheated check if trend and confirmation are present
    if trend_1h = some direction ∧ trend_4h = some direction ∧ confirm = true then
      .ok none
    else if closes_15m.length < 4 then .error "IndexError"
    -- additional candle body filter (overheated condition)
    else if retest_age > 0 ∧ bodyMax closes_15m > atr * (12/10) ∧ confirm = false then
      .ok (some { status := "skip", reason := "body stretch — evaluation too late", atr := atr })
    else if direction = "LONG" then
      if swing_high < current_price ∧ current_price ≤ swing_high + atr * (3/10) then
        .ok none  -- impulse_phase: valid scenario
      else if current_price > swing_high + atr * 2 ∧ confidence = none then
        .error "TypeError"
      else if current_price > swing_high + atr * 2 ∧ confidence.getD 0 < 2 then
        .ok (some
          { status := "skip",
            reason := "overheated long — price significantly above swing_high", atr := atr })
      else if |current_price - swing_high| ≤ atr * (1/10) ∧ confirm = true then
        .ok (some
          { status := "valid",
            reason := "validation after retest with confirmation (LONG)", atr := atr,
            scenario_bias := some direction, evaluation_price := some current_price,
            structural_target := some structural_target,
            structural_limit := some structural_limit, rr := some (pyRound2 rr) })
      else if |current_price - swing_high| ≤ atr * (1/10) then
        .ok (some
          { status := "wait_retest",
            reason := "waiting for confirmation after return to swing_high (LONG)", atr := atr })
      else .ok none
    else if direction = "SHORT" then
      if swing_low - atr * (3/10) ≤ current_price ∧ current_price < swing_low then
        .ok none  -- impulse_phase
      else if current_price < swing_low - atr * 2 ∧ confidence = none then
        .error "TypeError"
      else if current_price < swing_low - atr * 2 ∧ confidence.getD 0 < 2 then
        .ok (some
          { status := "skip",
            reason := "overheated short — price significantly below swing_low", atr := atr })
      else if |current_price - swing_low| ≤ atr * (1/10) ∧ confirm = true then
        .ok (some
          { status := "valid",
            reason := "validation after retest with confirmation (SHORT)", atr := atr,
            scenario_bias := some direction, evaluation_price := some current_price,
            structural_target := some structural_target,
            structural_limit := some structural_limit, rr := some (pyRound2 rr) })
      else if |current_price - swing_low| ≤ atr * (1/10) then
        .ok (some
          { status := "wait_retest",
            reason := "waiting for confirmation after return to swing_low (SHORT)", atr := atr })
      else .ok none
    else .ok none  -- no reason to evaluate further

example : entry_filter_retest "LONG" (201/2) [0, 100, 0, 201/2] 100 0 2
    ⟨0, 0, 0, 0, false, false, false, false⟩ 0 0 0 none none none (some 5) false 1 []
    = .ok (some
      { status := "skip", reason := "body stretch — evaluation too late",
        atr := 2 }) := by
  norm_num [entry_filter_retest, retestBreakoutReason, retestConfirm, bodyMax,
    strHasRun, listHasRun, listStartsWith, lowerStr, abs_of_nonneg, abs_of_nonpos]
  decide

example : entry_filter_retest "LONG" 110 [100, 100, 100, 110] 105 0 1
    ⟨0, 0, 0, 0, false, false, false, false⟩ 0 0 0 none none none (some 5) false 0 []
    = .ok none := by
  norm_num [entry_filter_retest, retestBreakoutReason, retestConfirm, bodyMax,
    strHasRun, listHasRun, listStartsWith, lowerStr, abs_of_nonneg, abs_of_nonpos]
  decide

/-! ### Theorems for the claims -/

/-- Claim C9: select_structural_limit raises ValueError exactly when the ATR
argument is ≤ 0; for every ATR > 0 it never raises and returns either a
price or None. -/
theorem select_structural_limit_atr_guard (entry : ℚ) (atr : ℚ)
    (sh sl tp poc lve : Option ℚ) (side : String) :
    (atr ≤ 0 →
      select_structural_limit entry atr sh sl tp poc lve side = .error "ATR must be > 0")
    ∧ (0 < atr →
      ∃ o : Option ℚ, select_structural_limit entry atr sh sl tp poc lve side = .ok o) := by
  constructor
  · intro h
    simp [select_structural_limit, h]
  · intro h
    refine ⟨limitTrendline entry atr tp side <|> limitSwing entry atr sh sl side <|>
      limitPoc entry atr poc side <|> limitLowVolume entry atr lve side, ?_⟩
    simp [select_structural_limit, not_le.mpr h]

/-- Witness for claim C9: the guard fires at atr = -1 and does not fire at
atr = 2. -/
theorem select_structural_limit_atr_guard_witness :
    select_structural_limit 100 (-1) none (some 95) none none none "LONG"
      = .error "ATR must be > 0"
    ∧ ∃ o : Option ℚ,
      select_structural_limit 100 2 none (some 95) none none none "LONG" = .ok o :=
  ⟨(select_structural_limit_atr_guard 100 (-1) none (some 95) none none none "LONG").1
      (by norm_num),
   (select_structural_limit_atr_guard 100 2 none (some 95) none none none "LONG").2
      (by norm_num)⟩

/-- Claim C4 (code bug): on closes = [0, 10, 0, 0, 0, 0] with atr = 1 the code
returns "down" because it compares the last close with closes[-5] (4 bars
back, here 10); the close 5 bars back (closes[-6], index 6-1-5) equals the
last close, so the claimed comparison would give "flat". -/
theorem calculate_trend_off_by_one :
    calculate_trend [0, 10, 0, 0, 0, 0] 1 = "down"
    ∧ ([0, 10, 0, 0, 0, 0] : List ℚ).getD (6 - 1 - 5) 0
      = ([0, 10, 0, 0, 0, 0] : List ℚ).getD (6 - 1) 0 := by
  constructor
  · norm_num [calculate_trend]
  · norm_num

/-- Counterexample for claim C8: the structural limit at the fixture is
95 * 0.997 - 0.25 * 2 = 94.215 = 18843/200, not the claimed 94.265. -/
theorem fixture_limit_value_cex :
    select_structural_limit 100 2 none (some 95) none none none "LONG"
      = .ok (some (18843/200))
    ∧ (18843/200 : ℚ) = 95 * (997/1000) - (25/100) * 2
    ∧ (18843/200 : ℚ) ≠ 94265/1000 := by
  refine ⟨?_, by norm_num, by norm_num⟩
  norm_num [select_structural_limit, limitTrendline, limitSwing, limitPoc, limitLowVolume,
    abs_of_nonneg, abs_of_nonpos]

/-- Claim C8 as amended: at the fixture the structural limit is 94.215, the
fallback target is 100 + (100 - 94.215) * 3 = 117.355, and the recomputed
risk/reward ratio is exactly 3. -/
theorem fixture_values :
    select_structural_limit 100 2 none (some 95) none none none "LONG"
      = .ok (some (18843/200))
    ∧ select_structural_target 100 (18843/200) 2 none none none none none none none
        "LONG" false 0 = .ok (23471/200, none, false)
    ∧ (23471/200 : ℚ) = 100 + (100 - 18843/200) * 3
    ∧ |(23471/200 : ℚ) - 100| / |100 - 18843/200| = 3 := by
  refine ⟨?_, ?_, by norm_num, by norm_num [abs_of_nonneg]⟩
  · norm_num [select_structural_limit, limitTrendline, limitSwing, limitPoc, limitLowVolume,
      abs_of_nonneg, abs_of_nonpos]
  · norm_num [select_structural_target, structuralTargetValue, targetSwing, targetPoc, targetTrendline,
      targetLowVolume, STRUCTURAL_TARGET_RATIO, PARTIAL_TARGET_RATIO,
      abs_of_nonneg, abs_of_nonpos]

/-- Counterexample for claim C5: the market-mode classifier can return the
string "flet", which is outside the enumeration {trend, scalp, flat,
neutral}. -/
theorem market_mode_flet_cex :
    classify_market_mode "flat" 1 2 [1, 2] = .ok "flet"
    ∧ "flet" ≠ "trend" ∧ "flet" ≠ "scalp" ∧ "flet" ≠ "flat" ∧ "flet" ≠ "neutral" := by
  refine ⟨?_, by decide, by decide, by decide, by decide⟩
  norm_num [classify_market_mode]

/-- Claim C5 as amended: whenever the classifier is defined (does not raise),
its value belongs to {trend, scalp, flet, neutral}, where "flet" is the
code's (misspelled) flat-market label. -/
theorem market_mode_codomain (t : String) (af as : ℚ) (vols : List ℚ) (r : String)
    (h : classify_market_mode t af as vols = .ok r) :
    r = "trend" ∨ r = "scalp" ∨ r = "flet" ∨ r = "neutral" := by
  simp only [classify_market_mode] at h
  split at h
  · simp only [Except.ok.injEq] at h
    split_ifs at h <;> simp_all
  · simp_all

/-- Witness for claim C5 as amended, at the concrete counterexample input. -/
theorem market_mode_codomain_witness :
    "flet" = "trend" ∨ "flet" = "scalp" ∨ "flet" = "flet" ∨ "flet" = "neutral" :=
  market_mode_codomain "flat" 1 2 [1, 2] "flet" (by norm_num [classify_market_mode])

/-- Claim C10: with swing_high = swing_low = 0 (the falsy encoding of an
absent level) and a positive current price, evaluate_direction always takes
the simple-breakout branch: LONG, single reason "Simple up breakout",
in_middle = False, for every trend, ATR and candle statistics. -/
theorem zero_levels_simple_up (cp : ℚ) (trend : String) (atr : ℚ)
    (highs lows : List ℚ) (cs : CandleStats) (h : 0 < cp) :
    evaluate_direction cp 0 0 trend atr highs lows cs
      = (some "LONG", ["Simple up breakout"], false) := by
  have h1 : ¬ cp < (0 : ℚ) := not_lt.mpr h.le
  simp [evaluate_direction, h, h1]

/-- Witness for claim C10 at current_price = 1 with arbitrary other data. -/
theorem zero_levels_simple_up_witness :
    evaluate_direction 1 0 0 "down" 2 [] [] ⟨1, 1, 1, 1, true, true, false, false⟩
      = (some "LONG", ["Simple up breakout"], false) :=
  zero_levels_simple_up 1 "down" 2 [] [] ⟨1, 1, 1, 1, true, true, false, false⟩ (by norm_num)

/-- Replaying n REJECTED events dated today adds n to both counters. -/
lemma foldl_replicate_rejected (today sym : String) (n : ℕ) (s : ContextEvaluator) :
    (List.replicate n (⟨today, sym, "REJECTED"⟩ : ScenarioEvent)).foldl (apply_event today) s
      = ⟨s.daily_rejection_count + n, s.consecutive_rejections + n⟩ := by
  induction n generalizing s with
  | zero => simp
  | succ n ih =>
    rw [List.replicate_succ, List.foldl_cons, ih]
    have hstep : apply_event today s ⟨today, sym, "REJECTED"⟩
        = ⟨s.daily_rejection_count + 1, s.consecutive_rejections + 1⟩ := by
      simp [apply_event, show upperStr "REJECTED" = "REJECTED" from by decide]
    rw [hstep]
    simp [ContextEvaluator.mk.injEq]
    omega

/-- Claim C2: hygiene counters of ContextEvaluator.  Replaying N REJECTED
events dated today from a fresh instance yields daily_rejection_count = N
(and consecutive_rejections = N); a REJECTED event dated today increments
both counters; an ACCEPTED event dated today zeroes consecutive_rejections
only; an event dated other than today changes nothing — where apply_event
is the counter update shared by log_scenario and _load_today_stats. -/
theorem hygiene_counters (today sym : String) (n : ℕ) (s : ContextEvaluator)
    (e : ScenarioEvent) :
    ((replay today (List.replicate n ⟨today, sym, "REJECTED"⟩)).daily_rejection_count = n
      ∧ (replay today (List.replicate n ⟨today, sym, "REJECTED"⟩)).consecutive_rejections = n)
    ∧ (e.date = today → upperStr e.scenario_status = "REJECTED" →
        apply_event today s e
          = ⟨s.daily_rejection_count + 1, s.consecutive_rejections + 1⟩)
    ∧ (e.date = today → upperStr e.scenario_status = "ACCEPTED" →
        apply_event today s e = ⟨s.daily_rejection_count, 0⟩)
    ∧ (e.date ≠ today → apply_event today s e = s) := by
  refine ⟨?_, ?_, ?_, ?_⟩
  · have h := foldl_replicate_rejected today sym n ⟨0, 0⟩
    unfold replay
    rw [h]
    simp
  · intro hd hs
    simp [apply_event, hd, hs]
  · intro hd hs
    have hne : ¬ upperStr e.scenario_status = "REJECTED" := by
      rw [hs]; decide
    simp [apply_event, hd, hs, hne]
  · intro hd
    simp [apply_event, hd]

/-- Witness for claim C2 at today = 2026-10-12 with three rejections, then a
same-day ACCEPTED event and a prior-day REJECTED event. -/
theorem hygiene_counters_witness :
    ((replay "2026-10-12"
        (List.replicate 3 ⟨"2026-10-12", "BTC-USDT", "REJECTED"⟩)).daily_rejection_count = 3
      ∧ (replay "2026-10-12"
        (List.replicate 3 ⟨"2026-10-12", "BTC-USDT", "REJECTED"⟩)).consecutive_rejections = 3)
    ∧ apply_event "2026-10-12" ⟨3, 3⟩ ⟨"2026-10-12", "ETH-USDT", "accepted"⟩ = ⟨3, 0⟩
    ∧ apply_event "2026-10-12" ⟨3, 3⟩ ⟨"2026-10-11", "ETH-USDT", "REJECTED"⟩ = ⟨3, 3⟩ :=
  ⟨(hygiene_counters "2026-10-12" "BTC-USDT" 3 ⟨0, 0⟩
      ⟨"2026-10-12", "ETH-USDT", "accepted"⟩).1,
   (hygiene_counters "2026-10-12" "BTC-USDT" 3 ⟨3, 3⟩
      ⟨"2026-10-12", "ETH-USDT", "accepted"⟩).2.2.1 rfl (by decide),
   (hygiene_counters "2026-10-12" "BTC-USDT" 3 ⟨3, 3⟩
      ⟨"2026-10-11", "ETH-USDT", "REJECTED"⟩).2.2.2 (by decide)⟩

/-- Counterexample for claim C3: with entry 100, limit 99, POC target 105 the
risk/reward ratio is 5, which does not exceed RR_MAX = 10, yet the code
returns a partial target and dynamic_adjustment = True (its threshold is
STRUCTURAL_TARGET_RATIO = 3, not RR_MAX). -/
theorem partial_flag_fires_below_rr_max :
    select_structural_target 100 99 1 none none none none none (some 105) none
      "LONG" false 0 = .ok (105, some (203/2), true)
    ∧ ¬ |(105 : ℚ) - 100| / |100 - 99| > RR_MAX := by
  constructor
  · norm_num [select_structural_target, structuralTargetValue, targetSwing, targetPoc, targetTrendline,
      targetLowVolume, STRUCTURAL_TARGET_RATIO, PARTIAL_TARGET_RATIO,
      abs_of_nonneg, abs_of_nonpos]
  · norm_num [RR_MAX, abs_of_nonneg]

/-- Claim C3 as amended: select_structural_target returns a partial target
together with dynamic_adjustment = True exactly when the resulting
risk/reward ratio exceeds STRUCTURAL_TARGET_RATIO (3.0), the fallback
ratio — not RR_MAX; otherwise partial_target is None and the flag False. -/
theorem partial_flag_threshold (e l atr : ℚ) (sh sl nsh nsl tt poc lve : Option ℚ)
    (side : String) (br : Bool) (conf t : ℚ) (pt : Option ℚ) (dyn : Bool)
    (h : select_structural_target e l atr sh sl nsh nsl tt poc lve side br conf
      = .ok (t, pt, dyn)) :
    (dyn = true ↔ |t - e| / |e - l| > STRUCTURAL_TARGET_RATIO)
    ∧ (dyn = true →
        pt = some (e + |e - l| * PARTIAL_TARGET_RATIO * (if side = "LONG" then 1 else -1)))
    ∧ (dyn = false → pt = none) := by
  simp only [select_structural_target] at h
  split at h
  · exact absurd h (by simp)
  · split at h
    · rename_i h1
      simp only [Except.ok.injEq, Prod.mk.injEq] at h
      obtain ⟨ht, hpt, hdyn⟩ := h
      rw [ht] at h1
      refine ⟨?_, fun _ => hpt.symm, fun hfalse => ?_⟩
      · rw [← hdyn]
        simp [h1]
      · rw [← hdyn] at hfalse
        exact absurd hfalse (by simp)
    · rename_i h1
      simp only [Except.ok.injEq, Prod.mk.injEq] at h
      obtain ⟨ht, hpt, hdyn⟩ := h
      rw [ht] at h1
      refine ⟨?_, fun htrue => ?_, fun _ => hpt.symm⟩
      · rw [← hdyn]
        simp [h1]
      · rw [← hdyn] at htrue
        exact absurd htrue (by simp)

/-- Witness for claim C3 as amended, at the POC-target input with ratio 5. -/
theorem partial_flag_threshold_witness :
    ((true = true) ↔ |(105 : ℚ) - 100| / |100 - 99| > STRUCTURAL_TARGET_RATIO)
    ∧ (true = true →
        (some (203/2) : Option ℚ)
          = some (100 + |(100 : ℚ) - 99| * PARTIAL_TARGET_RATIO *
              (if "LONG" = "LONG" then 1 else -1)))
    ∧ ((true : Bool) = false → (some (203/2) : Option ℚ) = none) :=
  partial_flag_threshold 100 99 1 none none none none none (some 105) none
    "LONG" false 0 105 (some (203/2)) true
    (by norm_num [select_structural_target, structuralTargetValue, targetSwing, targetPoc, targetTrendline,
      targetLowVolume, STRUCTURAL_TARGET_RATIO, PARTIAL_TARGET_RATIO,
      abs_of_nonneg, abs_of_nonpos])

/-- Counterexample for claim C6: under the pipeline's parameters
(retest_age = 0, as passed by check_entry) a scenario meeting all the
claim's premises — no breakout reason, a last-three candle body of 10 > 1.2
ATR, and no independent confirmation — is NOT rejected: the filter returns
None (pass), because the body-stretch branch also requires retest_age > 0. -/
theorem body_stretch_pipeline_cex :
    bodyMax [100, 100, 100, 110] > (1 : ℚ) * (12/10)
    ∧ entry_filter_retest "LONG" 110 [100, 100, 100, 110] 105 0 1
        ⟨0, 0, 0, 0, false, false, false, false⟩ 0 0 0 none none none (some 5) false 0 []
        = .ok none := by
  constructor
  · norm_num [bodyMax, abs_of_nonneg, abs_of_nonpos]
  · norm_num [entry_filter_retest, retestBreakoutReason, retestConfirm, bodyMax,
      strHasRun, listHasRun, listStartsWith, lowerStr, abs_of_nonneg, abs_of_nonpos]
    decide

set_option maxHeartbeats 1000000 in
/-- Claim C6 as amended: when no accumulated reason mentions "breakout" or
"exit from low-volume area", some of the last three candle bodies exceeds
1.2*ATR, there is no independent confirmation (no strong body, no volume
spike, no MACD agreement, no trend agreement), the closes list has at least
4 elements, AND retest_age > 0, the scenario is rejected with status "skip"
and the body-stretch reason.  The evaluation pipeline passes retest_age = 0,
so this rejection never fires there. -/
theorem body_stretch_requires_age (direction : String) (cp : ℚ) (closes : List ℚ)
    (sh sl atr : ℚ) (cs : CandleStats) (st sli rr : ℚ) (t1 t4 : Option String)
    (macd : Option Bool) (conf : Option ℚ) (dbg : Bool) (ra : ℤ) (reasons : List String)
    (hbr : strHasRun "breakout" (lowerStr (String.intercalate " " reasons)) = false)
    (hlv : strHasRun "exit from low-volume area"
      (lowerStr (String.intercalate " " reasons)) = false)
    (hsb : cs.strong_body = false) (hvs : cs.volume_spike = false)
    (hm : macd.getD false = false) (ht1 : ¬ t1 = some direction)
    (hlen : 4 ≤ closes.length) (hbody : bodyMax closes > atr * (12/10)) (hra : 0 < ra) :
    entry_filter_retest direction cp closes sh sl atr cs st sli rr t1 t4 macd conf
        dbg ra reasons
      = .ok (some
          { status := "skip", reason := "body stretch — evaluation too late",
            atr := atr }) := by
  have hconfirm : retestConfirm direction cs macd t1 = false := by
    simp [retestConfirm, hsb, hvs, hm, ht1]
  have hbrz : retestBreakoutReason reasons = false := by
    simp [retestBreakoutReason, hbr, hlv]
  have h1 : ¬ retestBreakoutReason reasons = true := by simp [hbrz]
  have h2 : ¬ (t1 = some direction ∧ t4 = some direction ∧
      retestConfirm direction cs macd t1 = true) := fun hc => ht1 hc.1
  have h3 : ¬ closes.length < 4 := by omega
  have h4 : ra > 0 ∧ bodyMax closes > atr * (12/10) ∧
      retestConfirm direction cs macd t1 = false := ⟨hra, hbody, hconfirm⟩
  simp only [entry_filter_retest]
  rw [if_neg h1, if_neg h2, if_neg h3, if_pos h4]

/-- Witness for claim C6 as amended, with retest_age = 2. -/
theorem body_stretch_requires_age_witness :
    entry_filter_retest "LONG" 110 [0, 100, 0, 110] 105 0 1
        ⟨0, 0, 0, 0, false, false, false, false⟩ 0 0 0 none none none (some 5) false 2 []
      = .ok (some
          { status := "skip", reason := "body stretch — evaluation too late",
            atr := 1 }) :=
  body_stretch_requires_age "LONG" 110 [0, 100, 0, 110] 105 0 1
    ⟨0, 0, 0, 0, false, false, false, false⟩ 0 0 0 none none none (some 5) false 2 []
    (by decide) (by decide) rfl rfl rfl (by decide) (by decide)
    (by norm_num [bodyMax, abs_of_nonneg, abs_of_nonpos]) (by decide)

/-- Counterexample for claim C7: at the fixture (LONG, swing_high 100, atr 2,
current price 100.5) the result is NOT independent of the remaining
arguments: with retest_age = 1, a large candle body and no confirmation the
filter returns the body-stretch skip, not None. -/
theorem retest_fixture_not_independent_cex :
    entry_filter_retest "LONG" (201/2) [0, 100, 0, 201/2] 100 0 2
        ⟨0, 0, 0, 0, false, false, false, false⟩ 0 0 0 none none none (some 5) false 1 []
      = .ok (some
          { status := "skip", reason := "body stretch — evaluation too late",
            atr := 2 })
    ∧ (Except.ok (some
        ({ status := "skip", reason := "body stretch — evaluation too late",
           atr := 2 } : RetestResult))
        : Except String (Option RetestResult)) ≠ .ok none := by
  constructor
  · norm_num [entry_filter_retest, retestBreakoutReason, retestConfirm, bodyMax,
      strHasRun, listHasRun, listStartsWith, lowerStr, abs_of_nonneg, abs_of_nonpos]
    decide
  · decide

set_option maxHeartbeats 1000000 in
/-- Claim C7 as amended: at the fixture (LONG, swing_high 100, atr 2,
current_price 100.5, inside the impulse band) entry_filter_retest returns
None independently of the confirmation flags and of all remaining arguments,
PROVIDED retest_age ≤ 0 (its default, and the value the pipeline passes) and
closes_15m has at least 4 elements (else the body-size computation raises). -/
theorem retest_fixture_pass (closes : List ℚ) (sl : ℚ) (cs : CandleStats)
    (st sli rr : ℚ) (t1 t4 : Option String) (macd : Option Bool) (conf : Option ℚ)
    (dbg : Bool) (ra : ℤ) (reasons : List String)
    (hra : ra ≤ 0) (hlen : 4 ≤ closes.length) :
    entry_filter_retest "LONG" (201/2) closes 100 sl 2 cs st sli rr t1 t4 macd conf
      dbg ra reasons = .ok none := by
  simp only [entry_filter_retest]
  split_ifs with h1 h2 h3 h4 h5 <;>
    first
      | rfl
      | (exfalso; omega)
      | (exact absurd h4.1 (by omega))
      | (exact absurd (by norm_num) h5)

/-- Witness for claim C7 as amended: all confirmation flags raised, trend and
MACD agreeing, a breakout reason present, retest_age = 0. -/
theorem retest_fixture_pass_witness :
    entry_filter_retest "LONG" (201/2) [1, 1, 1, 1] 100 0 2
        ⟨1, 1, 1, 1, true, true, false, false⟩ 117 94 3 (some "up") (some "up")
        (some true) (some 5) false 0 ["Breakout up + volume + 1H trend"]
      = .ok none :=
  retest_fixture_pass [1, 1, 1, 1] 0 ⟨1, 1, 1, 1, true, true, false, false⟩ 117 94 3
    (some "up") (some "up") (some true) (some 5) false 0
    ["Breakout up + volume + 1H trend"] (by decide) (by decide)

/-! ### Side lemmas for claim C1: every selected limit candidate is strictly
on the unfavorable side of the entry price, every target candidate strictly
on the favorable side. -/

lemma limitTrendline_long {e a r : ℚ} {tp : Option ℚ}
    (h : limitTrendline e a tp "LONG" = some r) : r < e := by
  simp [limitTrendline] at h
  obtain ⟨-, ⟨-, hlt⟩, rfl⟩ := h
  exact hlt

lemma limitTrendline_short {e a r : ℚ} {tp : Option ℚ}
    (h : limitTrendline e a tp "SHORT" = some r) : e < r := by
  simp [limitTrendline] at h
  obtain ⟨-, ⟨-, hgt⟩, rfl⟩ := h
  exact hgt

lemma limitSwing_long {e a r : ℚ} {sh sl : Option ℚ}
    (h : limitSwing e a sh sl "LONG" = some r) : r < e := by
  simp [limitSwing] at h
  obtain ⟨-, ⟨hlt, -⟩, rfl⟩ := h
  exact hlt

lemma limitSwing_short {e a r : ℚ} {sh sl : Option ℚ}
    (h : limitSwing e a sh sl "SHORT" = some r) : e < r := by
  simp [limitSwing] at h
  obtain ⟨-, ⟨hgt, -⟩, rfl⟩ := h
  exact hgt

lemma limitPoc_long {e a r : ℚ} {poc : Option ℚ}
    (h : limitPoc e a poc "LONG" = some r) : r < e := by
  simp [limitPoc] at h
  obtain ⟨-, ⟨hlt, -⟩, rfl⟩ := h
  exact hlt

lemma limitPoc_short {e a r : ℚ} {poc : Option ℚ}
    (h : limitPoc e a poc "SHORT" = some r) : e < r := by
  simp [limitPoc] at h
  obtain ⟨-, ⟨hgt, -⟩, rfl⟩ := h
  exact hgt

lemma limitLowVolume_long {e a r : ℚ} {lve : Option ℚ}
    (h : limitLowVolume e a lve "LONG" = some r) : r < e := by
  simp [limitLowVolume] at h
  obtain ⟨-, ⟨hlt, -⟩, rfl⟩ := h
  exact hlt

lemma limitLowVolume_short {e a r : ℚ} {lve : Option ℚ}
    (h : limitLowVolume e a lve "SHORT" = some r) : e < r := by
  simp [limitLowVolume] at h
  obtain ⟨-, ⟨hgt, -⟩, rfl⟩ := h
  exact hgt

/-- A limit actually returned for LONG lies strictly below the entry price. -/
lemma limit_chain_long {e a l : ℚ} {sh sl tp poc lve : Option ℚ}
    (h : select_structural_limit e a sh sl tp poc lve "LONG" = .ok (some l)) :
    l < e := by
  simp only [select_structural_limit] at h
  split_ifs at h with h0
  replace h := Except.ok.inj h
  cases hc1 : limitTrendline e a tp "LONG" with
  | some v =>
    rw [hc1, Option.some_orElse] at h
    exact (Option.some.inj h) ▸ limitTrendline_long hc1
  | none =>
    rw [hc1, Option.none_orElse] at h
    cases hc2 : limitSwing e a sh sl "LONG" with
    | some v =>
      rw [hc2, Option.some_orElse] at h
      exact (Option.some.inj h) ▸ limitSwing_long hc2
    | none =>
      rw [hc2, Option.none_orElse] at h
      cases hc3 : limitPoc e a poc "LONG" with
      | some v =>
        rw [hc3, Option.some_orElse] at h
        exact (Option.some.inj h) ▸ limitPoc_long hc3
      | none =>
        rw [hc3, Option.none_orElse] at h
        exact limitLowVolume_long h

/-- A limit actually returned for SHORT lies strictly above the entry price. -/
lemma limit_chain_short {e a l : ℚ} {sh sl tp poc lve : Option ℚ}
    (h : select_structural_limit e a sh sl tp poc lve "SHORT" = .ok (some l)) :
    e < l := by
  simp only [select_structural_limit] at h
  split_ifs at h with h0
  replace h := Except.ok.inj h
  cases hc1 : limitTrendline e a tp "SHORT" with
  | some v =>
    rw [hc1, Option.some_orElse] at h
    exact (Option.some.inj h) ▸ limitTrendline_short hc1
  | none =>
    rw [hc1, Option.none_orElse] at h
    cases hc2 : limitSwing e a sh sl "SHORT" with
    | some v =>
      rw [hc2, Option.some_orElse] at h
      exact (Option.some.inj h) ▸ limitSwing_short hc2
    | none =>
      rw [hc2, Option.none_orElse] at h
      cases hc3 : limitPoc e a poc "SHORT" with
      | some v =>
        rw [hc3, Option.some_orElse] at h
        exact (Option.some.inj h) ▸ limitPoc_short hc3
      | none =>
        rw [hc3, Option.none_orElse] at h
        exact limitLowVolume_short h

lemma targetSwing_long {e t : ℚ} {sh sl nsh nsl : Option ℚ} {br : Bool}
    (h : targetSwing e sh sl nsh nsl "LONG" br = some t) : e < t := by
  cases br <;> simp [targetSwing] at h <;>
    · obtain ⟨-, hgt, rfl⟩ := h
      exact hgt

lemma targetSwing_short {e t : ℚ} {sh sl nsh nsl : Option ℚ} {br : Bool}
    (h : targetSwing e sh sl nsh nsl "SHORT" br = some t) : t < e := by
  cases br <;> simp [targetSwing] at h <;>
    · obtain ⟨-, hlt, rfl⟩ := h
      exact hlt

lemma targetPoc_long {e t : ℚ} {poc : Option ℚ}
    (h : targetPoc e poc "LONG" = some t) : e < t := by
  simp [targetPoc] at h
  obtain ⟨⟨-, hgt⟩, rfl⟩ := h
  exact hgt

lemma targetPoc_short {e t : ℚ} {poc : Option ℚ}
    (h : targetPoc e poc "SHORT" = some t) : t < e := by
  simp [targetPoc] at h
  obtain ⟨⟨-, hlt⟩, rfl⟩ := h
  exact hlt

lemma targetTrendline_long {e t : ℚ} {tt : Option ℚ}
    (h : targetTrendline e tt "LONG" = some t) : e < t := by
  simp [targetTrendline] at h
  obtain ⟨⟨-, hgt⟩, rfl⟩ := h
  exact hgt

lemma targetTrendline_short {e t : ℚ} {tt : Option ℚ}
    (h : targetTrendline e tt "SHORT" = some t) : t < e := by
  simp [targetTrendline] at h
  obtain ⟨⟨-, hlt⟩, rfl⟩ := h
  exact hlt

lemma targetLowVolume_long {e t : ℚ} {lve : Option ℚ}
    (h : targetLowVolume e lve "LONG" = some t) : e < t := by
  simp [targetLowVolume] at h
  obtain ⟨⟨-, hgt⟩, rfl⟩ := h
  exact hgt

lemma targetLowVolume_short {e t : ℚ} {lve : Option ℚ}
    (h : targetLowVolume e lve "SHORT" = some t) : t < e := by
  simp [targetLowVolume] at h
  obtain ⟨⟨-, hlt⟩, rfl⟩ := h
  exact hlt

/-- Any structural target candidate chosen for LONG lies above the entry. -/
lemma target_chain_long {e v : ℚ} {sh sl nsh nsl tt poc lve : Option ℚ} {br : Bool}
    (h : (targetSwing e sh sl nsh nsl "LONG" br <|> targetPoc e poc "LONG" <|>
          targetTrendline e tt "LONG" <|> targetLowVolume e lve "LONG") = some v) :
    e < v := by
  cases hc1 : targetSwing e sh sl nsh nsl "LONG" br with
  | some w =>
    rw [hc1] at h
    simp only [Option.some_orElse] at h
    exact (Option.some.inj h) ▸ targetSwing_long hc1
  | none =>
    rw [hc1] at h
    simp only [Option.none_orElse] at h
    cases hc2 : targetPoc e poc "LONG" with
    | some w =>
      rw [hc2] at h
      simp only [Option.some_orElse] at h
      exact (Option.some.inj h) ▸ targetPoc_long hc2
    | none =>
      rw [hc2] at h
      simp only [Option.none_orElse] at h
      cases hc3 : targetTrendline e tt "LONG" with
      | some w =>
        rw [hc3] at h
        simp only [Option.some_orElse] at h
        exact (Option.some.inj h) ▸ targetTrendline_long hc3
      | none =>
        rw [hc3] at h
        simp only [Option.none_orElse] at h
        exact targetLowVolume_long h

/-- Any structural target candidate chosen for SHORT lies below the entry. -/
lemma target_chain_short {e v : ℚ} {sh sl nsh nsl tt poc lve : Option ℚ} {br : Bool}
    (h : (targetSwing e sh sl nsh nsl "SHORT" br <|> targetPoc e poc "SHORT" <|>
          targetTrendline e tt "SHORT" <|> targetLowVolume e lve "SHORT") = some v) :
    v < e := by
  cases hc1 : targetSwing e sh sl nsh nsl "SHORT" br with
  | some w =>
    rw [hc1] at h
    simp only [Option.some_orElse] at h
    exact (Option.some.inj h) ▸ targetSwing_short hc1
  | none =>
    rw [hc1] at h
    simp only [Option.none_orElse] at h
    cases hc2 : targetPoc e poc "SHORT" with
    | some w =>
      rw [hc2] at h
      simp only [Option.some_orElse] at h
      exact (Option.some.inj h) ▸ targetPoc_short hc2
    | none =>
      rw [hc2] at h
      simp only [Option.none_orElse] at h
      cases hc3 : targetTrendline e tt "SHORT" with
      | some w =>
        rw [hc3] at h
        simp only [Option.some_orElse] at h
        exact (Option.some.inj h) ▸ targetTrendline_short hc3
      | none =>
        rw [hc3] at h
        simp only [Option.none_orElse] at h
        exact targetLowVolume_short h

/-- For LONG with limit ≠ entry, the selected-or-fallback target is above
the entry price. -/
lemma structuralTargetValue_long {e l : ℚ} {sh sl nsh nsl tt poc lve : Option ℚ}
    {br : Bool} (hne : l ≠ e) :
    e < structuralTargetValue e l sh sl nsh nsl tt poc lve "LONG" br := by
  unfold structuralTargetValue
  cases hc : (targetSwing e sh sl nsh nsl "LONG" br <|> targetPoc e poc "LONG" <|>
      targetTrendline e tt "LONG" <|> targetLowVolume e lve "LONG") with
  | some v =>
    simpa using target_chain_long hc
  | none =>
    simp only [Option.getD_none, STRUCTURAL_TARGET_RATIO]
    simp only [if_true]
    have habs : 0 < |e - l| := abs_pos.mpr (sub_ne_zero.mpr (Ne.symm hne))
    linarith

/-- For SHORT with limit ≠ entry, the selected-or-fallback target is below
the entry price. -/
lemma structuralTargetValue_short {e l : ℚ} {sh sl nsh nsl tt poc lve : Option ℚ}
    {br : Bool} (hne : l ≠ e) :
    structuralTargetValue e l sh sl nsh nsl tt poc lve "SHORT" br < e := by
  unfold structuralTargetValue
  cases hc : (targetSwing e sh sl nsh nsl "SHORT" br <|> targetPoc e poc "SHORT" <|>
      targetTrendline e tt "SHORT" <|> targetLowVolume e lve "SHORT") with
  | some v =>
    simpa using target_chain_short hc
  | none =>
    simp only [Option.getD_none, STRUCTURAL_TARGET_RATIO]
    rw [if_neg (by decide : ¬ ("SHORT" : String) = "LONG")]
    have habs : 0 < |e - l| := abs_pos.mpr (sub_ne_zero.mpr (Ne.symm hne))
    linarith

/-- The target component returned by select_structural_target is always the
structuralTargetValue. -/
lemma select_structural_target_value {e l a conf t : ℚ}
    {sh sl nsh nsl tt poc lve : Option ℚ} {side : String} {br : Bool}
    {pt : Option ℚ} {dyn : Bool}
    (h : select_structural_target e l a sh sl nsh nsl tt poc lve side br conf
      = .ok (t, pt, dyn)) :
    t = structuralTargetValue e l sh sl nsh nsl tt poc lve side br := by
  simp only [select_structural_target] at h
  split at h
  · exact absurd h (by simp)
  · split at h <;>
      · simp only [Except.ok.injEq, Prod.mk.injEq] at h
        exact h.1.symm

/-- Claim C1: for side LONG or SHORT, whenever select_structural_limit
returns a limit and select_structural_target (called with that limit)
returns a target, the limit lies strictly on the unfavorable side of the
entry price, the target strictly on the favorable side, and neither equals
the entry price. -/
theorem structural_levels_sides (e a : ℚ)
    (sh sl tp poc lve sh2 sl2 nsh nsl tt poc2 lve2 : Option ℚ)
    (side : String) (l t : ℚ) (pt : Option ℚ) (dyn : Bool) (br : Bool) (conf : ℚ)
    (hside : side = "LONG" ∨ side = "SHORT")
    (hl : select_structural_limit e a sh sl tp poc lve side = .ok (some l))
    (ht : select_structural_target e l a sh2 sl2 nsh nsl tt poc2 lve2 side br conf
      = .ok (t, pt, dyn)) :
    ((side = "LONG" → l < e ∧ e < t) ∧ (side = "SHORT" → t < e ∧ e < l))
    ∧ l ≠ e ∧ t ≠ e := by
  rcases hside with rfl | rfl
  · have hle : l < e := limit_chain_long hl
    have hte : t = structuralTargetValue e l sh2 sl2 nsh nsl tt poc2 lve2 "LONG" br :=
      select_structural_target_value ht
    have het : e < t := by
      rw [hte]
      exact structuralTargetValue_long (ne_of_lt hle)
    exact ⟨⟨fun _ => ⟨hle, het⟩, fun hS => absurd hS (by decide)⟩,
      ne_of_lt hle, ne_of_gt het⟩
  · have hgt : e < l := limit_chain_short hl
    have hte : t = structuralTargetValue e l sh2 sl2 nsh nsl tt poc2 lve2 "SHORT" br :=
      select_structural_target_value ht
    have het : t < e := by
      rw [hte]
      exact structuralTargetValue_short (ne_of_gt hgt)
    exact ⟨⟨fun hL => absurd hL (by decide), fun _ => ⟨het, hgt⟩⟩,
      ne_of_gt hgt, ne_of_lt het⟩

/-- Witness for claim C1 at the swing-low fixture (LONG, entry 100, atr 2,
swing_low 95): limit 94.215 below entry, fallback target 117.355 above. -/
theorem structural_levels_sides_witness :
    ((("LONG" : String) = "LONG" → (18843/200 : ℚ) < 100 ∧ (100 : ℚ) < 23471/200)
      ∧ (("LONG" : String) = "SHORT" → (23471/200 : ℚ) < 100 ∧ (100 : ℚ) < 18843/200))
    ∧ (18843/200 : ℚ) ≠ 100 ∧ (23471/200 : ℚ) ≠ 100 :=
  structural_levels_sides 100 2 none (some 95) none none none none none none none
    none none none "LONG" (18843/200) (23471/200) none false false 0 (Or.inl rfl)
    (by norm_num [select_structural_limit, limitTrendline, limitSwing, limitPoc,
      limitLowVolume, abs_of_nonneg, abs_of_nonpos])
    (by norm_num [select_structural_target, structuralTargetValue, targetSwing,
      targetPoc, targetTrendline, targetLowVolume, STRUCTURAL_TARGET_RATIO,
      PARTIAL_TARGET_RATIO, abs_of_nonneg, abs_of_nonpos])

end LevelBot
